import Mathlib

/-!
Shallow embedding of the core of `lindas-hydro-scraper`:
- `DataProcessor` (src/lindas_hydro_scraper/core/data_processor.py)
- `Measurement` (src/lindas_hydro_scraper/models/measurement.py)
- `SparqlClient.execute_query` (src/lindas_hydro_scraper/core/sparql_client.py)
- `CsvHandler` (src/lindas_hydro_scraper/utils/csv_handler.py)
- `Parameter` (src/lindas_hydro_scraper/models/query.py)

Python values flowing through the processor are JSON-shaped; we model them
with `JVal`.  Operations that can raise in Python (`in` on an int, attribute
access on a non-dict, string indexing) are modelled in `Except PyErr`.
-/

namespace LindasHydro

/-- A JSON-shaped Python value (the payloads returned by the SPARQL client
and fed to `DataProcessor`). -/
inductive JVal where
  | null
  | bool (b : Bool)
  | int (n : Int)
  | str (s : String)
  | arr (xs : List JVal)
  | obj (fields : List (String × JVal))

/-- The Python exception classes raised by the operations we model. -/
inductive PyErr where
  | typeError
  | attributeError
  | keyError
deriving DecidableEq, Repr

/-! Structural character-level implementations of the Python string
operations used below (`in`, `split`, `replace`, `strip`, `lower`), kept
kernel-reducible. -/

/-- `needle in haystack` for strings: does `pat` occur in `cs`? -/
def containsSub (cs pat : List Char) : Bool :=
  match cs with
  | [] => pat.isEmpty
  | _ :: rest => pat.isPrefixOf cs || containsSub rest pat

/-- `str.split(sep)` for a non-empty separator, left-to-right and
non-overlapping; `fuel ≥ cs.length` makes the fuel case unreachable. -/
def splitChars (fuel : Nat) (cs pat : List Char) : List (List Char) :=
  match fuel, cs with
  | _, [] => [[]]
  | 0, cs => [cs]
  | fuel + 1, c :: rest =>
    if pat.isPrefixOf (c :: rest) then
      [] :: splitChars fuel ((c :: rest).drop pat.length) pat
    else
      match splitChars fuel rest pat with
      | [] => [[c]]   -- unreachable: split never returns an empty list
      | p :: ps => (c :: p) :: ps

/-- `s.split(sep)[-1]`: the piece after the last occurrence of `sep`
(whole string when `sep` does not occur). -/
def lastPiece (s sep : String) : String :=
  String.mk ((splitChars s.data.length s.data sep.data).getLastD [])

/-- `str.replace(pat, rep)` for a one-character pattern. -/
def replaceChar (pat : Char) (rep : List Char) : List Char → List Char
  | [] => []
  | c :: rest =>
    if c = pat then rep ++ replaceChar pat rep rest
    else c :: replaceChar pat rep rest

/-- Python `str.isspace` characters (ASCII range). -/
def isPySpace (c : Char) : Bool :=
  c = ' ' ∨ c = '\t' ∨ c = '\n' ∨ c = '\r' ∨ c = '\x0b' ∨ c = '\x0c'

/-- `str.strip()`. -/
def trimChars (cs : List Char) : List Char :=
  ((cs.dropWhile isPySpace).reverse.dropWhile isPySpace).reverse

/-- `str.lower()` (ASCII range; the inputs here are ASCII). -/
def lowerChars (cs : List Char) : List Char :=
  cs.map (fun c => if 'A' ≤ c ∧ c ≤ 'Z' then Char.ofNat (c.toNat + 32) else c)

namespace JVal

/-- Python truthiness (`bool(v)`): `None`/`False`/`0`/empty containers and
empty strings are falsy. -/
def truthy : JVal → Bool
  | .null => false
  | .bool b => b
  | .int n => n ≠ 0
  | .str s => !s.data.isEmpty
  | .arr xs => !xs.isEmpty
  | .obj fs => !fs.isEmpty

/-- `isinstance(v, dict)`. -/
def isDict : JVal → Bool
  | .obj _ => true
  | _ => false

/-- `isinstance(v, list)`. -/
def isList : JVal → Bool
  | .arr _ => true
  | _ => false

/-- Does `s` occur as a substring of `t`?  (`needle in haystack` for
Python strings.) -/
def strContains (t needle : String) : Bool :=
  containsSub t.data needle.data

/-- Python `needle in v` for a string needle: key membership on dicts,
substring on strings, element membership on lists; `TypeError` on
non-container values. -/
def pyIn (needle : String) : JVal → Except PyErr Bool
  | .obj fs => .ok (fs.any (fun kv => kv.1 == needle))
  | .str s => .ok (strContains s needle)
  | .arr xs =>
    .ok (xs.any (fun x => match x with | .str s => s == needle | _ => false))
  | .null => .error .typeError
  | .bool _ => .error .typeError
  | .int _ => .error .typeError

/-- Python `v[key]` for a string key: dict item lookup (`KeyError` when
missing); strings and lists demand integer indices (`TypeError`), and
non-subscriptables raise `TypeError`. -/
def getItem (v : JVal) (key : String) : Except PyErr JVal :=
  match v with
  | .obj fs =>
    match fs.lookup key with
    | some x => .ok x
    | none => .error .keyError
  | _ => .error .typeError

/-- Python `v.get(key, default)`: only dicts have `.get`
(`AttributeError` otherwise). -/
def dictGet (v : JVal) (key : String) (dflt : JVal) : Except PyErr JVal :=
  match v with
  | .obj fs => .ok ((fs.lookup key).getD dflt)
  | _ => .error .attributeError

/-- Python iteration `for x in v`: lists yield elements, strings yield
one-character strings, dicts yield their keys; other values raise
`TypeError`. -/
def pyIterate : JVal → Except PyErr (List JVal)
  | .arr xs => .ok xs
  | .str s => .ok (s.data.map (fun c => JVal.str (String.singleton c)))
  | .obj fs => .ok (fs.map (fun kv => JVal.str kv.1))
  | .null => .error .typeError
  | .bool _ => .error .typeError
  | .int _ => .error .typeError

end JVal

/-! ### Python `decimal.Decimal`, as used by `Measurement.parse_decimal`

Modelled from CPython `_pydecimal.Decimal.__new__` (string construction) and
`Decimal.__str__`.  A finite decimal is a sign, a coefficient digit string
with no leading zeros (`str(int(intpart + fracpart))`) and an exponent;
`sNaN` diagnostics are collapsed into `nan` (the distinction is never
observed here). -/

inductive Dec where
  | num (neg : Bool) (digits : String) (exp : Int)
  | nan
  | inf (neg : Bool)
deriving DecidableEq

namespace Dec

/-- `str(int(s))` for a digit string: drop leading zeros, keep at least "0". -/
def stripLeadingZeros (s : String) : String :=
  let t := s.data.dropWhile (fun c => c = '0')
  if t.isEmpty then "0" else String.mk t

/-- `[sign] digits`, digits nonempty — the exponent part of a numeric string. -/
def parseExpNum (cs : List Char) : Option Int :=
  let (neg, ds) :=
    match cs with
    | '-' :: t => (true, t)
    | '+' :: t => (false, t)
    | t => (false, t)
  if ds.isEmpty ∨ ¬(ds.all Char.isDigit) then none
  else
    let v : Int := Int.ofNat (ds.foldl (fun a c => a * 10 + (c.toNat - 48)) 0)
    some (if neg then -v else v)

/-- The numeric branch of the `decimal` literal grammar:
`digits [. digits] [E [sign] digits]` with at least one coefficient digit. -/
def parseNumeric (neg : Bool) (cs : List Char) : Option Dec :=
  let (mant, expRest) := cs.span (fun c => ¬(c = 'e' ∨ c = 'E'))
  let expVal? : Option Int :=
    match expRest with
    | [] => some 0
    | _ :: es => parseExpNum es
  match expVal? with
  | none => none
  | some e =>
    let (ip, dotRest) := mant.span (fun c => c ≠ '.')
    let fp : List Char := match dotRest with | [] => [] | _ :: t => t
    if ip.all Char.isDigit ∧ fp.all Char.isDigit ∧ ¬(ip.isEmpty ∧ fp.isEmpty) then
      some (.num neg (stripLeadingZeros (String.mk (ip ++ fp))) (e - fp.length))
    else none

/-- `Decimal(s)` for a string `s`: strip surrounding whitespace, drop
underscores, then match the numeric-string grammar (sign, then a number,
an infinity, or a NaN).  `none` models `InvalidOperation`. -/
def parse (raw : String) : Option Dec :=
  let s := replaceChar '_' [] (trimChars raw.data)
  let (neg, body) :=
    match s with
    | '-' :: t => (true, t)
    | '+' :: t => (false, t)
    | t => (false, t)
  let low := lowerChars body
  if low = "inf".data ∨ low = "infinity".data then some (.inf neg)
  else if "nan".data.isPrefixOf low ∧ (low.drop 3).all Char.isDigit then some .nan
  else if "snan".data.isPrefixOf low ∧ (low.drop 4).all Char.isDigit then some .nan
  else parseNumeric neg body

/-- `Decimal.__str__` (scientific notation rules included verbatim from
`_pydecimal`). -/
def toStr : Dec → String
  | .inf neg => if neg then "-Infinity" else "Infinity"
  | .nan => "NaN"
  | .num neg digits exp =>
    let n : Int := digits.length
    let leftdigits : Int := exp + n
    let dotplace : Int := if exp ≤ 0 ∧ leftdigits > -6 then leftdigits else 1
    let intfrac : String × String :=
      if dotplace ≤ 0 then
        ("0", "." ++ String.mk (List.replicate (-dotplace).toNat '0') ++ digits)
      else if dotplace ≥ n then
        (digits ++ String.mk (List.replicate (dotplace - n).toNat '0'), "")
      else
        (String.mk (digits.data.take dotplace.toNat),
         "." ++ String.mk (digits.data.drop dotplace.toNat))
    let exppart : String :=
      if leftdigits = dotplace then ""
      else
        let e := leftdigits - dotplace
        "E" ++ (if e ≥ 0 then "+" ++ toString e else toString e)
    (if neg then "-" else "") ++ intfrac.1 ++ intfrac.2 ++ exppart

end Dec

/-! ### Python `datetime`, as used by `Measurement` -/

/-- A timezone-aware-or-naive `datetime.datetime`; `tz` is the UTC offset in
seconds when aware. -/
structure PyDateTime where
  year : Nat
  month : Nat
  day : Nat
  hour : Nat := 0
  minute : Nat := 0
  second : Nat := 0
  microsecond : Nat := 0
  tz : Option Int := none
deriving DecidableEq

namespace PyDateTime

/-- Zero-pad a natural to `width` digits. -/
def pad (n width : Nat) : String :=
  let s := toString n
  String.mk (List.replicate (width - s.length) '0') ++ s

def isLeap (y : Nat) : Bool := y % 4 = 0 ∧ (y % 100 ≠ 0 ∨ y % 400 = 0)

def daysInMonth (y m : Nat) : Nat :=
  if m = 2 then (if isLeap y then 29 else 28)
  else if m = 4 ∨ m = 6 ∨ m = 9 ∨ m = 11 then 30
  else 31

/-- `datetime.isoformat()`: `YYYY-MM-DDTHH:MM:SS[.ffffff][±HH:MM[:SS]]`,
microseconds omitted when zero, offset seconds omitted when zero. -/
def isoformat (d : PyDateTime) : String :=
  pad d.year 4 ++ "-" ++ pad d.month 2 ++ "-" ++ pad d.day 2 ++ "T" ++
  pad d.hour 2 ++ ":" ++ pad d.minute 2 ++ ":" ++ pad d.second 2 ++
  (if d.microsecond ≠ 0 then "." ++ pad d.microsecond 6 else "") ++
  (match d.tz with
   | none => ""
   | some off =>
     let a := off.natAbs
     (if off < 0 then "-" else "+") ++ pad (a / 3600) 2 ++ ":" ++
     pad (a % 3600 / 60) 2 ++
     (if a % 60 ≠ 0 then ":" ++ pad (a % 60) 2 else ""))

/-- Exactly `n` decimal digits at the head of the input. -/
def takeDigits (cs : List Char) (n : Nat) : Option (Nat × List Char) :=
  let pre := cs.take n
  if pre.length = n ∧ pre.all Char.isDigit then
    some (pre.foldl (fun a c => a * 10 + (c.toNat - 48)) 0, cs.drop n)
  else none

/-- `HH[:MM[:SS[.f+]]]` (fraction truncated to microseconds). -/
def parseTime (cs : List Char) : Option (Nat × Nat × Nat × Nat) := do
  let (h, t1) ← takeDigits cs 2
  if h > 23 then none
  else match t1 with
  | [] => some (h, 0, 0, 0)
  | ':' :: t2 => do
    let (mi, t3) ← takeDigits t2 2
    if mi > 59 then none
    else match t3 with
    | [] => some (h, mi, 0, 0)
    | ':' :: t4 => do
      let (sec, t5) ← takeDigits t4 2
      if sec > 59 then none
      else match t5 with
      | [] => some (h, mi, sec, 0)
      | '.' :: fr =>
        if fr.isEmpty ∨ ¬(fr.all Char.isDigit) then none
        else
          let six := (fr.take 6) ++ List.replicate (6 - fr.length) '0'
          some (h, mi, sec, six.foldl (fun a c => a * 10 + (c.toNat - 48)) 0)
      | _ => none
    | _ => none
  | _ => none

/-- `±HH[:MM[:SS]]` UTC offset, strictly less than 24 hours; result in
seconds. -/
def parseOffset (cs : List Char) : Option Int := do
  match cs with
  | sign :: rest =>
    if sign ≠ '+' ∧ sign ≠ '-' then none
    else do
      let (h, t1) ← takeDigits rest 2
      if h > 23 then none
      else do
        let (mi, se) ← (match t1 with
          | [] => some (0, 0)
          | ':' :: t2 => do
            let (mi, t3) ← takeDigits t2 2
            match t3 with
            | [] => some (mi, 0)
            | ':' :: t4 => do
              let (se, t5) ← takeDigits t4 2
              if t5.isEmpty then some (mi, se) else none
            | _ => none
          | _ => none)
        if mi > 59 ∨ se > 59 then none
        else
          let total : Int := Int.ofNat (h * 3600 + mi * 60 + se)
          some (if sign = '-' then -total else total)
  | [] => none

/-- Modelled from CPython `datetime.fromisoformat` (Python ≥ 3.11),
restricted to the extended ISO-8601 forms relevant here:
`YYYY-MM-DD` optionally followed by `T`/space and
`HH[:MM[:SS[.f+]]][±HH[:MM[:SS]]]`. -/
def fromisoformat (s : String) : Option PyDateTime := do
  let cs := s.data
  let (y, c1) ← takeDigits cs 4
  match c1 with
  | '-' :: c2 => do
    let (mo, c3) ← takeDigits c2 2
    match c3 with
    | '-' :: c4 => do
      let (d, c5) ← takeDigits c4 2
      if mo < 1 ∨ mo > 12 ∨ d < 1 ∨ d > daysInMonth y mo then none
      else match c5 with
      | [] => some { year := y, month := mo, day := d }
      | sep :: rest =>
        if sep ≠ 'T' ∧ sep ≠ ' ' then none
        else do
          let (timeCs, offCs) := rest.span (fun c => c ≠ '+' ∧ c ≠ '-')
          let (h, mi, sec, us) ← parseTime timeCs
          let tz ← (match offCs with
            | [] => some (none : Option Int)
            | _ => (parseOffset offCs).map some)
          some { year := y, month := mo, day := d, hour := h, minute := mi,
                 second := sec, microsecond := us, tz := tz }
    | _ => none
  | _ => none

end PyDateTime

/-! ### Constants (src/lindas_hydro_scraper/core/constants.py) -/

def LINDAS_BASE_URL : String := "https://environment.ld.admin.ch/foen/hydro"

def DIMENSION_URL : String := LINDAS_BASE_URL ++ "/dimension"

def CSV_COLUMNS : List String :=
  ["timestamp", "station_id", "discharge", "water_level", "danger_level",
   "water_temperature", "is_liter"]

/-! ### `Parameter` (src/lindas_hydro_scraper/models/query.py) -/

inductive Parameter where
  | station
  | discharge
  | measurementTime
  | waterLevel
  | dangerLevel
  | waterTemperature
  | isLiter
deriving DecidableEq, Fintype, Repr

namespace Parameter

/-- The enum member's string value. -/
def value : Parameter → String
  | .station => "station"
  | .discharge => "discharge"
  | .measurementTime => "measurementTime"
  | .waterLevel => "waterLevel"
  | .dangerLevel => "dangerLevel"
  | .waterTemperature => "waterTemperature"
  | .isLiter => "isLiter"

/-- `Parameter.uri`: `isLiter` is special-cased to an example.com URI, every
other member lives under `DIMENSION_URL`. -/
def uri (p : Parameter) : String :=
  if p = .isLiter then "http://example.com/isLiter"
  else DIMENSION_URL ++ "/" ++ p.value

end Parameter

/-! ### `Measurement` (src/lindas_hydro_scraper/models/measurement.py) -/

structure Measurement where
  station_id : String
  timestamp : PyDateTime
  discharge : Option Dec := none
  water_level : Option Dec := none
  water_temperature : Option Dec := none
  danger_level : Option Int := none
  is_liter : Option Bool := none
deriving DecidableEq

/-- Digit-string value. -/
def digitsToNat (cs : List Char) : Nat :=
  cs.foldl (fun a c => a * 10 + (c.toNat - 48)) 0

/-- `[sign] digits`, the strings pydantic v2 lax mode coerces to `int`. -/
def parseSignedIntStr (cs : List Char) : Option Int :=
  let (neg, ds) :=
    match cs with
    | '-' :: t => (true, t)
    | '+' :: t => (false, t)
    | t => (false, t)
  if ds.isEmpty ∨ ¬(ds.all Char.isDigit) then none
  else some (if neg then -(Int.ofNat (digitsToNat ds)) else Int.ofNat (digitsToNat ds))

namespace Measurement

/-- `Measurement.parse_decimal`: `None` passes through, blank strings become
`None`, otherwise `Decimal(str(v))` with parse failures soft-nulled. -/
def parse_decimal (v : JVal) : Option Dec :=
  match v with
  | .null => none
  | .str s => if (trimChars s.data).isEmpty then none else Dec.parse s
  | .int n => Dec.parse (toString n)
  | .bool _ => none   -- str(True)/str(False) never matches the numeric grammar
  | .arr _ => none    -- str(list)/str(dict) contain brackets: InvalidOperation
  | .obj _ => none

/-- `Measurement.parse_timestamp`: strings go through
`datetime.fromisoformat(v.replace("Z", "+00:00"))`; `none` models the hard
`ValueError` (datetime instances cannot occur in JSON payloads). -/
def parse_timestamp (v : JVal) : Option PyDateTime :=
  match v with
  | .str s => PyDateTime.fromisoformat (String.mk (replaceChar 'Z' "+00:00".data s.data))
  | _ => none

/-- `Measurement.parse_bool`: case-insensitive true/false words, anything
else soft-nulled. -/
def parse_bool (v : JVal) : Option Bool :=
  match v with
  | .null => none
  | .bool b => some b
  | .str s =>
    let l := trimChars (lowerChars s.data)
    if l = "true".data ∨ l = "1".data ∨ l = "yes".data then some true
    else if l = "false".data ∨ l = "0".data ∨ l = "no".data then some false
    else none
  | _ => none

/-- Pydantic's coercion of the `danger_level` value to `int | None` under
`Field(ge=0, le=5)`; outer `none` models a `ValidationError` (failed int
parse or out-of-range value). -/
def coerce_danger_level (v : JVal) : Option (Option Int) :=
  match v with
  | .null => some none
  | .int n => if 0 ≤ n ∧ n ≤ 5 then some (some n) else none
  | .str s =>
    match parseSignedIntStr (trimChars s.data) with
    | some n => if 0 ≤ n ∧ n ≤ 5 then some (some n) else none
    | none => none
  | _ => none   -- bools, lists and dicts are not valid ints in pydantic v2

/-- `Measurement.has_measurements`. -/
def has_measurements (m : Measurement) : Bool :=
  m.discharge.isSome || m.water_level.isSome || m.water_temperature.isSome

/-- `Measurement.to_csv_dict` (key order as in the source). -/
def to_csv_dict (m : Measurement) : List (String × Option String) :=
  [("timestamp", some m.timestamp.isoformat),
   ("station_id", some m.station_id),
   ("discharge", m.discharge.map Dec.toStr),
   ("water_level", m.water_level.map Dec.toStr),
   ("danger_level", m.danger_level.map (fun n => toString n)),
   ("water_temperature", m.water_temperature.map Dec.toStr),
   ("is_liter", m.is_liter.map (fun b => if b then "true" else "false"))]

/-- `Measurement.unique_key`. -/
def unique_key (m : Measurement) : String :=
  m.timestamp.isoformat ++ "_" ++ m.station_id

end Measurement

/-- `data.get(key)` on the extracted-data dict (default `None`). -/
def dataGetD (data : List (String × JVal)) (k : String) : JVal :=
  (data.lookup k).getD .null

/-- `Measurement(**data)` under pydantic validation; `none` models a
`ValidationError`.  Construction succeeds exactly when the station value
is a string (it always is: extraction stores the station id
unconditionally), the timestamp value parses, and the danger-level value
(defaulting to `None`) coerces into 0–5; the decimal and boolean fields
soft-null instead of failing.  A missing required field is a
field-required `ValidationError`, matched here by `parse_timestamp .null
= none`.  The extracted-data dict only ever holds the seven declared
field names, so no extra-key handling arises. -/
def mkMeasurement (data : List (String × JVal)) : Option Measurement :=
  match dataGetD data "station_id",
        Measurement.parse_timestamp (dataGetD data "timestamp"),
        Measurement.coerce_danger_level (dataGetD data "danger_level") with
  | .str s, some ts, some dl =>
    some { station_id := String.mk (trimChars s.data)   -- str_strip_whitespace
           timestamp := ts
           discharge := Measurement.parse_decimal (dataGetD data "discharge")
           water_level := Measurement.parse_decimal (dataGetD data "water_level")
           water_temperature :=
             Measurement.parse_decimal (dataGetD data "water_temperature")
           danger_level := dl
           is_liter := Measurement.parse_bool (dataGetD data "is_liter") }
  | _, _, _ => none

/-! ### `DataProcessor` (src/lindas_hydro_scraper/core/data_processor.py) -/

namespace DataProcessor

/-- The `field_mapping` table inside `_map_predicate_to_field`. -/
def field_mapping : List (String × String) :=
  [("measurementTime", "timestamp"),
   ("discharge", "discharge"),
   ("waterLevel", "water_level"),
   ("waterTemperature", "water_temperature"),
   ("dangerLevel", "danger_level"),
   ("isLiter", "is_liter")]

/-- `DataProcessor._map_predicate_to_field`: two-pattern URI matching
(`predicate_uri.split(marker)[-1]`), then the `field_mapping` lookup.
Non-string predicates reach the `in` test (possibly a `TypeError`) and, if
a marker matches, the missing `.split` attribute. -/
def mapPredicateToField (p : JVal) : Except PyErr (Option String) :=
  match JVal.pyIn "/dimension/" p with
  | .error e => .error e
  | .ok true =>
    match p with
    | .str s => .ok (field_mapping.lookup (lastPiece s "/dimension/"))
    | _ => .error .attributeError   -- non-strings have no `.split`
  | .ok false =>
    match JVal.pyIn "example.com/" p with
    | .error e => .error e
    | .ok true =>
      match p with
      | .str s => .ok (field_mapping.lookup (lastPiece s "example.com/"))
      | _ => .error .attributeError
    | .ok false => .ok none

/-- `DataProcessor._validate_results`:
`bool(results and isinstance(results, dict) and "results" in results and
"bindings" in results["results"] and results["results"]["bindings"])`,
with the `in` tests and subscripts able to raise. -/
def validate_results (results : JVal) : Except PyErr Bool :=
  if !results.truthy then .ok false
  else if !results.isDict then .ok false
  else
    match JVal.pyIn "results" results with
    | .error e => .error e
    | .ok false => .ok false
    | .ok true =>
      match results.getItem "results" with
      | .error e => .error e
      | .ok t =>
        match JVal.pyIn "bindings" t with
        | .error e => .error e
        | .ok false => .ok false
        | .ok true =>
          match t.getItem "bindings" with
          | .error e => .error e
          | .ok b => .ok b.truthy

/-- Python dict assignment `data[field_name] = value`: overwrite the
existing entry in place, or append at the end.  (The extracted-data dict
never holds duplicate keys, so replacing the first occurrence is
replacing the only one.) -/
def dictSet : List (String × JVal) → String → JVal → List (String × JVal)
  | [], k, v => [(k, v)]
  | (k', w) :: d, k, v =>
    if k' = k then (k, v) :: d else (k', w) :: dictSet d k v

/-- One iteration of the `for binding in ...` loop body of
`_extract_data`: read the `predicate`/`object` values via `.get`, skip
empty predicates and missing object values, translate the predicate.
`.ok (some (f, v))` stores `v` under field `f`; `.ok none` is a `continue`;
`.error` is an uncaught exception. -/
def extractStep (b : JVal) : Except PyErr (Option (String × JVal)) :=
  match JVal.dictGet b "predicate" (.obj []) with
  | .error e => .error e
  | .ok predDict =>
    match JVal.dictGet predDict "value" (.str "") with
    | .error e => .error e
    | .ok pred =>
      match JVal.dictGet b "object" (.obj []) with
      | .error e => .error e
      | .ok objDict =>
        match JVal.dictGet objDict "value" .null with
        | .error e => .error e
        | .ok value =>
          match pred.truthy, value with
          | false, _ => .ok none
          | true, .null => .ok none
          | true, v =>
            match mapPredicateToField pred with
            | .error e => .error e
            | .ok (some f) => .ok (some (f, v))
            | .ok none => .ok none

/-- The `for binding in results["results"]["bindings"]` loop of
`_extract_data`. -/
def extractLoop (data : List (String × JVal)) :
    List JVal → Except PyErr (List (String × JVal))
  | [] => .ok data
  | b :: bs =>
    match extractStep b with
    | .error e => .error e
    | .ok none => extractLoop data bs
    | .ok (some (f, v)) => extractLoop (dictSet data f v) bs

/-- The binding list `_extract_data` iterates over:
`results["results"]["bindings"]` put through Python iteration. -/
def bindingsListOf (results : JVal) : Except PyErr (List JVal) :=
  match results.getItem "results" with
  | .error e => .error e
  | .ok t =>
    match t.getItem "bindings" with
    | .error e => .error e
    | .ok bindings => bindings.pyIterate

/-- `DataProcessor._extract_data`: iterate the bindings, starting the data
dict at the unconditional station entry. -/
def extract_data (results : JVal) (stationId : String) :
    Except PyErr (List (String × JVal)) :=
  match bindingsListOf results with
  | .error e => .error e
  | .ok items => extractLoop [("station_id", .str stationId)] items

/-- `bool(data.get("timestamp"))`. -/
def truthyOpt : Option JVal → Bool
  | none => false
  | some v => v.truthy

/-- `DataProcessor.process_results`.  The `try`/`except` around `Measurement`
construction is `mkMeasurement`'s `Option`; exceptions outside it (structure
validation, extraction) propagate as `.error`. -/
def process_results (results : JVal) (stationId : String) :
    Except PyErr (Option Measurement) :=
  match validate_results results with
  | .error e => .error e
  | .ok false => .ok none
  | .ok true =>
    match extract_data results stationId with
    | .error e => .error e
    | .ok data =>
      if !truthyOpt (data.lookup "timestamp") then .ok none
      else
        match mkMeasurement data with
        | none => .ok none
        | some m => if m.has_measurements then .ok (some m) else .ok none

end DataProcessor

namespace DataProcessor

/-- The value the extraction loop last stores under field `f` while
processing the binding list: the object value of the last binding whose
predicate translates to `f` and whose object value is present. -/
def lastContribution (f : String) : List JVal → Option JVal
  | [] => none
  | b :: bs =>
    match lastContribution f bs with
    | some v => some v
    | none =>
      match extractStep b with
      | .ok (some (g, v)) => if g = f then some v else none
      | _ => none

lemma lookup_dictSet_self (d : List (String × JVal)) (k : String) (v : JVal) :
    (dictSet d k v).lookup k = some v := by
  induction d with
  | nil => simp [dictSet, List.lookup]
  | cons kv d ih =>
    obtain ⟨a, w⟩ := kv
    by_cases h : a = k
    · subst h; simp [dictSet, List.lookup]
    · have hk : (k == a) = false := by
        simp only [beq_eq_false_iff_ne, ne_eq]
        exact fun hh => h hh.symm
      simp [dictSet, h, List.lookup, hk, ih]

lemma lookup_dictSet_ne (d : List (String × JVal)) {g k : String} (v : JVal)
    (h : g ≠ k) : (dictSet d k v).lookup g = d.lookup g := by
  induction d with
  | nil =>
    have hg : (g == k) = false := by simpa using h
    simp [dictSet, List.lookup, hg]
  | cons kv d ih =>
    obtain ⟨a, w⟩ := kv
    by_cases ha : a = k
    · subst ha
      have hg : (g == a) = false := by simpa using h
      simp [dictSet, List.lookup, hg]
    · by_cases hga : g = a
      · subst hga; simp [dictSet, ha, List.lookup]
      · have hg : (g == a) = false := by simpa using hga
        simp [dictSet, ha, List.lookup, hg, ih]

lemma field_mapping_cases {k f : String} (h : field_mapping.lookup k = some f) :
    f = "timestamp" ∨ f = "discharge" ∨ f = "water_level" ∨
    f = "water_temperature" ∨ f = "danger_level" ∨ f = "is_liter" := by
  simp only [field_mapping, List.lookup] at h
  repeat' split at h
  all_goals simp_all

lemma mapPredicateToField_cases {p : JVal} {f : String}
    (h : mapPredicateToField p = .ok (some f)) :
    f = "timestamp" ∨ f = "discharge" ∨ f = "water_level" ∨
    f = "water_temperature" ∨ f = "danger_level" ∨ f = "is_liter" := by
  unfold mapPredicateToField at h
  repeat' split at h
  all_goals first
    | exact Except.noConfusion h
    | (injection h with h'; exact Option.noConfusion h')
    | (injection h with h'; exact field_mapping_cases h')

lemma extractStep_field_cases {b : JVal} {f : String} {v : JVal}
    (h : extractStep b = .ok (some (f, v))) :
    f = "timestamp" ∨ f = "discharge" ∨ f = "water_level" ∨
    f = "water_temperature" ∨ f = "danger_level" ∨ f = "is_liter" := by
  unfold extractStep at h
  repeat' split at h
  all_goals first
    | exact Except.noConfusion h
    | (injection h with h'; exact Option.noConfusion h')
    | exact mapPredicateToField_cases (by assumption)
    | (injection h with h'
       injection h' with h''
       obtain ⟨hf, _⟩ := Prod.mk.inj h''
       subst hf
       exact mapPredicateToField_cases (by assumption))

lemma extractStep_field_ne_station {b : JVal} {f : String} {v : JVal}
    (h : extractStep b = .ok (some (f, v))) : f ≠ "station_id" := by
  rcases extractStep_field_cases h with h' | h' | h' | h' | h' | h' <;>
    (subst h'; decide)

lemma extractLoop_lookup_of_no_contribution {f : String} {bs : List JVal}
    {data data' : List (String × JVal)}
    (hrun : extractLoop data bs = .ok data')
    (hnone : lastContribution f bs = none) :
    data'.lookup f = data.lookup f := by
  induction bs generalizing data with
  | nil =>
    unfold extractLoop at hrun
    injection hrun with h
    rw [h]
  | cons b bs ih =>
    unfold extractLoop at hrun
    unfold lastContribution at hnone
    cases hlast : lastContribution f bs with
    | some w => rw [hlast] at hnone; exact Option.noConfusion hnone
    | none =>
      rw [hlast] at hnone
      cases hstep : extractStep b with
      | error e => rw [hstep] at hrun; exact Except.noConfusion hrun
      | ok o =>
        rw [hstep] at hrun hnone
        match o, hrun, hnone with
        | none, hrun, _ => exact ih hrun hlast
        | some (g, w), hrun, hnone =>
          have hrun' : extractLoop (dictSet data g w) bs = .ok data' := hrun
          have hnone' : (if g = f then some w else none) = (none : Option JVal) :=
            hnone
          have hg : g ≠ f := by
            intro hgf
            rw [if_pos hgf] at hnone'
            exact Option.noConfusion hnone'
          rw [ih hrun' hlast, lookup_dictSet_ne _ _ (fun hh => hg hh.symm)]

lemma extractLoop_lookup_last {f : String} {v : JVal} {bs : List JVal}
    {data data' : List (String × JVal)}
    (hrun : extractLoop data bs = .ok data')
    (hlastc : lastContribution f bs = some v) :
    data'.lookup f = some v := by
  induction bs generalizing data with
  | nil => exact Option.noConfusion hlastc
  | cons b bs ih =>
    unfold extractLoop at hrun
    unfold lastContribution at hlastc
    cases hlast : lastContribution f bs with
    | some w =>
      rw [hlast] at hlastc
      injection hlastc with hw
      subst hw
      cases hstep : extractStep b with
      | error e => rw [hstep] at hrun; exact Except.noConfusion hrun
      | ok o =>
        rw [hstep] at hrun
        match o, hrun with
        | none, hrun => exact ih hrun hlast
        | some (g, u), hrun => exact ih hrun hlast
    | none =>
      rw [hlast] at hlastc
      cases hstep : extractStep b with
      | error e => rw [hstep] at hrun; exact Except.noConfusion hrun
      | ok o =>
        rw [hstep] at hrun hlastc
        match o, hrun, hlastc with
        | none, _, hlastc => exact Option.noConfusion hlastc
        | some (g, u), hrun, hlastc =>
          have hrun' : extractLoop (dictSet data g u) bs = .ok data' := hrun
          have hlastc' : (if g = f then some u else none) = some v := hlastc
          by_cases hgf : g = f
          · rw [if_pos hgf] at hlastc'
            injection hlastc' with hu
            subst hu; subst hgf
            rw [extractLoop_lookup_of_no_contribution hrun' hlast,
              lookup_dictSet_self]
          · rw [if_neg hgf] at hlastc'
            exact Option.noConfusion hlastc'

lemma extractLoop_station {bs : List JVal} {data data' : List (String × JVal)}
    (hrun : extractLoop data bs = .ok data') :
    data'.lookup "station_id" = data.lookup "station_id" := by
  induction bs generalizing data with
  | nil =>
    unfold extractLoop at hrun
    injection hrun with h
    rw [h]
  | cons b bs ih =>
    unfold extractLoop at hrun
    cases hstep : extractStep b with
    | error e => rw [hstep] at hrun; exact Except.noConfusion hrun
    | ok o =>
      rw [hstep] at hrun
      match o, hrun with
      | none, hrun => exact ih hrun
      | some (g, u), hrun =>
        have hrun' : extractLoop (dictSet data g u) bs = .ok data' := hrun
        rw [ih hrun',
          lookup_dictSet_ne _ _ (fun hh => extractStep_field_ne_station hstep hh.symm)]

lemma extract_data_station {results : JVal} {sid : String}
    {data : List (String × JVal)}
    (he : extract_data results sid = .ok data) :
    data.lookup "station_id" = some (.str sid) := by
  unfold extract_data at he
  cases hb : bindingsListOf results with
  | error e => rw [hb] at he; exact Except.noConfusion he
  | ok items =>
    rw [hb] at he
    have he' : extractLoop [("station_id", .str sid)] items = .ok data := he
    rw [extractLoop_station he']
    simp [List.lookup]

end DataProcessor

/-! ### `SparqlClient` (src/lindas_hydro_scraper/core/sparql_client.py) -/

namespace SparqlClient

/-- `SparqlClient._validate_results`: a dict holding a `"results"` member
holding a `"bindings"` member that is a list (possibly empty).  The `in`
tests and subscripts can raise on wrongly-typed members. -/
def validate_results (results : JVal) : Except PyErr Bool :=
  if !results.isDict then .ok false
  else
    match JVal.pyIn "results" results with
    | .error e => .error e
    | .ok false => .ok false
    | .ok true =>
      match results.getItem "results" with
      | .error e => .error e
      | .ok t =>
        match JVal.pyIn "bindings" t with
        | .error e => .error e
        | .ok false => .ok false
        | .ok true =>
          match t.getItem "bindings" with
          | .error e => .error e
          | .ok b => .ok b.isList

/-- Did `_validate_results` accept the response (no exception, `True`)? -/
def wellFormed (r : JVal) : Bool :=
  match validate_results r with
  | .ok true => true
  | _ => false

/-- Outcome of one `self._client.query().convert()` call. -/
inductive Attempt where
  | success (resp : JVal)   -- the request returned a JSON document
  | sparqlError             -- SPARQLWrapperException (transient)
  | otherError              -- any other exception

/-- The retry loop of `execute_query`, acting on the outcome list of the
successive attempts (`rest = []` means the current attempt is the last,
`attempt == max_retries - 1`, when no backoff sleep happens).  Returns the
result, the sleeps performed in order, and the number of attempts made.
A success whose shape `_validate_results` rejects — or whose validation
raises, caught by the generic `except Exception` — returns `None`
immediately; so does any non-`SPARQLWrapperException` error. -/
def execLoop (delay : ℚ) : List Attempt → Option JVal × List ℚ × Nat
  | [] => (none, [], 0)
  | .success r :: _ =>
    match validate_results r with
    | .ok true => (some r, [], 1)
    | .ok false => (none, [], 1)
    | .error _ => (none, [], 1)
  | .otherError :: _ => (none, [], 1)
  | .sparqlError :: rest =>
    if rest.isEmpty then (none, [], 1)
    else
      let r := execLoop (delay * 2) rest
      (r.1, delay :: r.2.1, r.2.2 + 1)

/-- `SparqlClient.execute_query` for a client configured with
`max_retries` and `initial_delay`, where `outcomes i` is what attempt
`i`'s request does. -/
def execute_query (maxRetries : Nat) (initialDelay : ℚ)
    (outcomes : Nat → Attempt) : Option JVal × List ℚ × Nat :=
  execLoop initialDelay ((List.range maxRetries).map outcomes)

lemma execLoop_fail_then_success (k : Nat) (d : ℚ) (r : JVal)
    (rest : List Attempt) :
    execLoop d (List.replicate k .sparqlError ++ .success r :: rest) =
      ((if wellFormed r then some r else none),
       (List.range k).map (fun j => d * 2 ^ j), k + 1) := by
  induction k generalizing d with
  | zero =>
    simp only [List.replicate, List.nil_append, List.range_zero, List.map_nil]
    unfold execLoop wellFormed
    cases hv : validate_results r with
    | error e => simp
    | ok b => cases b <;> simp
  | succ k ih =>
    simp only [List.replicate_succ, List.cons_append]
    unfold execLoop
    have hne : (List.replicate k Attempt.sparqlError
        ++ .success r :: rest).isEmpty = false := by
      cases k <;> simp [List.replicate]
    rw [hne]
    simp only [Bool.false_eq_true, if_false]
    rw [ih (d * 2)]
    have hmap : (List.range (k + 1)).map (fun j => d * 2 ^ j)
        = d :: (List.range k).map (fun j => (d * 2) * 2 ^ j) := by
      rw [List.range_succ_eq_map, List.map_cons, List.map_map]
      refine congrArg₂ List.cons (by norm_num) ?_
      refine List.map_congr_left (fun a _ => ?_)
      simp only [Function.comp, Nat.succ_eq_add_one, pow_succ]
      ring
    rw [hmap]

end SparqlClient

/-! ### `CsvHandler` (src/lindas_hydro_scraper/utils/csv_handler.py) -/

namespace CsvHandler

/-- One on-disk CSV data row, as the dict written by `csv.DictWriter` and
read back by pandas (`none` = empty cell = NaN). -/
abbrev Row := List (String × Option String)

/-- The handler's observable state: the file (existence and data rows) and
the in-memory `_processed_keys` index. -/
structure State where
  fileExists : Bool
  rows : List Row
  processedKeys : List String

/-- The staging loop of `save_measurements`: skip measurements whose
`unique_key` is already in `_processed_keys`, otherwise stage the CSV dict
and add the key immediately. -/
def stage (keys : List String) : List Measurement → List String × List Row
  | [] => (keys, [])
  | m :: ms =>
    if m.unique_key ∈ keys then stage keys ms
    else
      let r := stage (m.unique_key :: keys) ms
      (r.1, m.to_csv_dict :: r.2)

/-- `CsvHandler.save_measurements`; `writeOk = false` makes the append
`open`/`writerows` raise, which the handler logs and turns into a return
of 0 — the keys stay updated, the rows untouched. -/
def save_measurements (st : State) (ms : List Measurement) (writeOk : Bool) :
    State × Nat :=
  if ms.isEmpty then (st, 0)
  else
    let staged := stage st.processedKeys ms
    if staged.2.isEmpty then ({ st with processedKeys := staged.1 }, 0)
    else if writeOk then
      ({ st with processedKeys := staged.1, rows := st.rows ++ staged.2 },
       staged.2.length)
    else ({ st with processedKeys := staged.1 }, 0)

/-- `row['timestamp']` (missing or empty cell = NaN = `none`). -/
def rowTimestamp (r : Row) : Option String := (r.lookup "timestamp").getD none

/-- `row['station_id']`. -/
def rowStation (r : Row) : Option String := (r.lookup "station_id").getD none

/-- The `(timestamp, station_id)` duplicate subset. -/
def rowKey (r : Row) : Option String × Option String :=
  (rowTimestamp r, rowStation r)

/-- pandas `drop_duplicates(subset=["timestamp", "station_id"],
keep="first")`. -/
def dropDuplicates : List Row → List Row
  | [] => []
  | r :: rs => r :: dropDuplicates (rs.filter (fun r2 => rowKey r2 ≠ rowKey r))
termination_by l => l.length
decreasing_by
  simp_wf
  exact Nat.lt_succ_of_le (List.length_filter_le _ _)

/-- Rebuild `_processed_keys` from the cleaned frame: rows with both the
timestamp and the station not NaN. -/
def keysOfRows (rows : List Row) : List String :=
  rows.filterMap (fun r =>
    match rowTimestamp r, rowStation r with
    | some t, some s => some (t ++ "_" ++ s)
    | _, _ => none)

/-- `CsvHandler.remove_duplicates`: result is
`(new state, removed count, warned)`; `warned` is the missing-file log
warning. -/
def remove_duplicates (st : State) : State × Nat × Bool :=
  if !st.fileExists then (st, 0, true)
  else
    let cleaned := dropDuplicates st.rows
    let removed := st.rows.length - cleaned.length
    if removed > 0 then
      ({ st with rows := cleaned, processedKeys := keysOfRows cleaned },
       removed, false)
    else (st, 0, false)

lemma stage_keys_mono {keys : List String} {ms : List Measurement} {k : String}
    (h : k ∈ keys) : k ∈ (stage keys ms).1 := by
  induction ms generalizing keys with
  | nil => exact h
  | cons m ms ih =>
    unfold stage
    by_cases hm : m.unique_key ∈ keys
    · rw [if_pos hm]; exact ih h
    · rw [if_neg hm]; exact ih (List.mem_cons_of_mem _ h)

lemma stage_key_mem {keys : List String} {ms : List Measurement}
    {m : Measurement} (hm : m ∈ ms) : m.unique_key ∈ (stage keys ms).1 := by
  induction ms generalizing keys with
  | nil => cases hm
  | cons m' ms ih =>
    unfold stage
    by_cases hm' : m'.unique_key ∈ keys
    · rw [if_pos hm']
      rcases List.mem_cons.mp hm with h | h
      · subst h; exact stage_keys_mono hm'
      · exact ih h
    · rw [if_neg hm']
      rcases List.mem_cons.mp hm with h | h
      · subst h; exact stage_keys_mono (List.mem_cons_self _ _)
      · exact ih h

lemma stage_of_all_mem {keys : List String} {ms : List Measurement}
    (h : ∀ m ∈ ms, m.unique_key ∈ keys) : stage keys ms = (keys, []) := by
  induction ms with
  | nil => rfl
  | cons m ms ih =>
    unfold stage
    rw [if_pos (h m (List.mem_cons_self _ _))]
    exact ih (fun m' hm' => h m' (List.mem_cons_of_mem _ hm'))

lemma save_measurements_keys (st : State) (ms : List Measurement) (w : Bool) :
    ((save_measurements st ms w).1).processedKeys
      = (stage st.processedKeys ms).1 := by
  unfold save_measurements
  by_cases hms : ms.isEmpty
  · rw [if_pos hms]
    obtain rfl : ms = [] := List.isEmpty_iff.mp hms
    rfl
  · rw [if_neg hms]
    cases hst : stage st.processedKeys ms with
    | mk ks rs =>
      simp only [hst]
      cases rs <;> cases w <;> rfl

lemma save_mem_keys {st : State} {ms : List Measurement} {m : Measurement}
    (w : Bool) (hm : m ∈ ms) :
    m.unique_key ∈ ((save_measurements st ms w).1).processedKeys := by
  rw [save_measurements_keys]
  exact stage_key_mem hm

lemma save_of_all_mem {st : State} {ms : List Measurement} (b : Bool)
    (h : ∀ m ∈ ms, m.unique_key ∈ st.processedKeys) :
    save_measurements st ms b = (st, 0) := by
  unfold save_measurements
  by_cases hms : ms.isEmpty
  · rw [if_pos hms]
  · rw [if_neg hms]
    simp [stage_of_all_mem h]

lemma save_fail_result (st : State) (ms : List Measurement) :
    (save_measurements st ms false).2 = 0 ∧
      ((save_measurements st ms false).1).rows = st.rows := by
  unfold save_measurements
  by_cases hms : ms.isEmpty
  · rw [if_pos hms]; exact ⟨rfl, rfl⟩
  · rw [if_neg hms]
    cases hst : stage st.processedKeys ms with
    | mk ks rs =>
      simp only [hst]
      cases rs <;> exact ⟨rfl, rfl⟩

lemma dropDuplicates_eq_self {rows : List Row}
    (h : rows.Pairwise (fun a b => rowKey a ≠ rowKey b)) :
    dropDuplicates rows = rows := by
  induction rows with
  | nil => simp only [dropDuplicates]
  | cons r rs ih =>
    simp only [dropDuplicates]
    obtain ⟨hr, hrs⟩ := List.pairwise_cons.mp h
    have hfilter : rs.filter (fun r2 => rowKey r2 ≠ rowKey r) = rs := by
      apply List.filter_eq_self.mpr
      intro a ha
      simp only [ne_eq, decide_not, Bool.not_eq_eq_eq_not, Bool.not_true,
        decide_eq_false_iff_not]
      exact fun hh => hr a ha hh.symm
    rw [hfilter, ih hrs]

end CsvHandler

/-! ### Concrete payloads used in the statements below -/

/-- A well-formed SPARQL binding with a predicate URI and an object value. -/
def mkBinding (p v : String) : JVal :=
  .obj [("predicate", .obj [("value", .str p)]),
        ("object", .obj [("value", .str v)])]

/-- A well-formed response carrying `measurementTime=2024-01-15T10:30:00Z`
and `discharge=123.45`. -/
def goodResponse : JVal :=
  .obj [("results", .obj [("bindings", .arr
    [mkBinding (DIMENSION_URL ++ "/measurementTime") "2024-01-15T10:30:00Z",
     mkBinding (DIMENSION_URL ++ "/discharge") "123.45"])])]

/-- A well-formed response whose danger level is out of the 0–5 range. -/
def dangerResponse : JVal :=
  .obj [("results", .obj [("bindings", .arr
    [mkBinding (DIMENSION_URL ++ "/measurementTime") "2024-01-15T10:30:00Z",
     mkBinding (DIMENSION_URL ++ "/discharge") "123.45",
     mkBinding (DIMENSION_URL ++ "/dangerLevel") "7"])])]

/-- What `_extract_data` yields on `dangerResponse` for station "2044". -/
def dangerData : List (String × JVal) :=
  [("station_id", .str "2044"),
   ("timestamp", .str "2024-01-15T10:30:00Z"),
   ("discharge", .str "123.45"),
   ("danger_level", .str "7")]

/-- A well-formed response with zero bindings. -/
def emptyBindingsResponse : JVal :=
  .obj [("results", .obj [("bindings", .arr [])])]

/-- The measurement the pipeline produces from `goodResponse` for
station "2044". -/
def goodMeasurement : Measurement :=
  { station_id := "2044"
    timestamp := { year := 2024, month := 1, day := 15, hour := 10,
                   minute := 30, tz := some 0 }
    discharge := some (.num false "12345" (-2)) }

/-- `csv.writer` serialization of one cell (`None` = empty; quoting is
never triggered by measurement values but stated for completeness). -/
def csvCell (v : Option String) : String :=
  match v with
  | none => ""
  | some s =>
    if s.data.any (fun c => c = ',' ∨ c = '"' ∨ c = '\n' ∨ c = '\r') then
      "\"" ++ String.join (s.data.map
        (fun c => if c = '"' then "\"\"" else String.singleton c)) ++ "\""
    else s

/-- `csv.DictWriter` serialization of one dict row under the `CSV_COLUMNS`
field order (missing fields fall back to the empty `restval`). -/
def csvLine (r : CsvHandler.Row) : String :=
  String.intercalate "," (CSV_COLUMNS.map (fun c => csvCell ((r.lookup c).getD none)))

/-- Does `_map_predicate_to_field` translate this predicate into a record
field name (rather than discarding it or raising)? -/
def mapsToField (p : JVal) : Bool :=
  match DataProcessor.mapPredicateToField p with
  | .ok (some _) => true
  | _ => false

/-! ### Claims -/

/-- C2 (code_bug): the claim says `process_results` returns none and never
raises for every malformed input.  Empty or absent sections indeed return
none, but a `"results"` member of a non-container type makes the
`"bindings" in results["results"]` test raise `TypeError`, and binding
elements that are not mappings make `_extract_data`'s `.get` calls raise
`AttributeError`; neither is caught. -/
theorem c2_process_results_raises :
    DataProcessor.process_results (.obj []) "2044" = .ok none ∧
    DataProcessor.process_results (.obj [("results", .obj [])]) "2044" = .ok none ∧
    DataProcessor.process_results (.obj [("results", .int 5)]) "2044"
      = .error .typeError ∧
    DataProcessor.process_results
      (.obj [("results", .obj [("bindings", .arr [.str "x"])])]) "2044"
      = .error .attributeError :=
  ⟨rfl, rfl, rfl, rfl⟩

/-- C4: a client with initial delay 1.0 and max attempts 4, failing every
attempt with a transient endpoint error, makes exactly 4 attempts, sleeps
1.0, 2.0 and 4.0 seconds in that order, and returns none. -/
theorem c4_backoff_sequence :
    SparqlClient.execute_query 4 1 (fun _ => .sparqlError)
      = (none, [1, 2, 4], 4) := by
  norm_num [SparqlClient.execute_query, SparqlClient.execLoop, List.range_succ]

/-- C5: the first attempt that succeeds without a transport error decides
the call — a well-formed response (`"results"`→`"bindings"` list, possibly
empty) is returned as-is, a malformed one yields none — in both cases
immediately: the attempt count is `k + 1` and the only sleeps are the
backoff waits of the `k` failures before it. -/
theorem c5_first_success_decides (maxR k : Nat) (d : ℚ)
    (outcomes : Nat → SparqlClient.Attempt) (r : JVal)
    (hk : k < maxR)
    (hfail : ∀ j, j < k → outcomes j = .sparqlError)
    (hsucc : outcomes k = .success r) :
    SparqlClient.execute_query maxR d outcomes =
      ((if SparqlClient.wellFormed r then some r else none),
       (List.range k).map (fun j => d * 2 ^ j), k + 1) := by
  unfold SparqlClient.execute_query
  have hsplit : (List.range maxR).map outcomes
      = List.replicate k .sparqlError ++ .success r ::
        ((List.range' (k + 1) (maxR - (k + 1))).map outcomes) := by
    have hmr : maxR = 1 + (maxR - (k + 1)) + k := by omega
    rw [List.range_eq_range']
    conv_lhs => rw [hmr]
    rw [← List.range'_append_1 0 k (1 + (maxR - (k + 1))), List.map_append]
    refine congrArg₂ List.append ?_ ?_
    · refine List.eq_replicate_iff.mpr ⟨by simp, ?_⟩
      intro b hb
      obtain ⟨j, hj, hjb⟩ := List.mem_map.mp hb
      obtain ⟨-, hj2⟩ := List.mem_range'_1.mp hj
      rw [← hjb]
      exact hfail j (by omega)
    · rw [Nat.zero_add, Nat.add_comm 1 _, List.range'_succ, List.map_cons, hsucc]
  rw [hsplit, SparqlClient.execLoop_fail_then_success]

/-- Attempt outcomes for the C5 witness: one transient failure, then a
well-formed empty-bindings response. -/
def c5Outcomes : Nat → SparqlClient.Attempt :=
  fun j => if j = 0 then .sparqlError else .success emptyBindingsResponse

/-- Witness for `c5_first_success_decides`: a client with 3 max attempts
sleeps once, then returns the zero-binding response on attempt 2. -/
theorem c5_first_success_decides_witness :
    SparqlClient.execute_query 3 1 c5Outcomes
      = (some emptyBindingsResponse, [(1 : ℚ)], 2) := by
  rw [c5_first_success_decides 3 1 1 c5Outcomes emptyBindingsResponse
    (by norm_num)
    (fun j hj => by
      have hj0 : j = 0 := by omega
      rw [hj0]; rfl)
    rfl]
  have hwf : SparqlClient.wellFormed emptyBindingsResponse = true := rfl
  rw [hwf]
  norm_num [List.range_succ]

/-- C6 (counterexample): the claim says every `Parameter` member's URI is
translated to a record field by `_map_predicate_to_field`; the `station`
member's URI is discarded as unmapped (`"station"` has no entry in
`field_mapping`). -/
theorem c6_station_uri_unmapped :
    DataProcessor.mapPredicateToField (.str Parameter.station.uri) = .ok none := by
  rfl

/-- C6 (amended): every `Parameter` member except `station` has its URI
translated by `_map_predicate_to_field` into a record field name. -/
theorem c6_lockstep_except_station :
    ∀ p : Parameter, p ≠ .station → mapsToField (.str p.uri) = true := by
  decide

/-- Witness for `c6_lockstep_except_station` at `discharge`. -/
theorem c6_lockstep_witness :
    Parameter.discharge ≠ Parameter.station ∧
      mapsToField (.str Parameter.discharge.uri) = true :=
  ⟨by decide, c6_lockstep_except_station .discharge (by decide)⟩

/-- C7: mapping `goodResponse` for station "2044" and saving the record
yields exactly the stored row
`2024-01-15T10:30:00+00:00,2044,123.45,,,,` under the `CSV_COLUMNS`
order (trailing `Z` parsed as offset `+00:00`, unset fields empty). -/
theorem c7_end_to_end :
    DataProcessor.process_results goodResponse "2044" = .ok (some goodMeasurement) ∧
    (CsvHandler.save_measurements ⟨true, [], []⟩ [goodMeasurement] true).1.rows.map csvLine
      = ["2024-01-15T10:30:00+00:00,2044,123.45,,,,"] ∧
    (CsvHandler.save_measurements ⟨true, [], []⟩ [goodMeasurement] true).2 = 1 :=
  ⟨rfl, rfl, rfl⟩

/-- The extracted timestamp field parses (claim condition). -/
def timestampParses (data : List (String × JVal)) : Bool :=
  (Measurement.parse_timestamp (dataGetD data "timestamp")).isSome

/-- At least one of discharge, water level, water temperature is non-null
after coercion (claim condition). -/
def hasMeasurementValue (data : List (String × JVal)) : Bool :=
  (Measurement.parse_decimal (dataGetD data "discharge")).isSome ||
  (Measurement.parse_decimal (dataGetD data "water_level")).isSome ||
  (Measurement.parse_decimal (dataGetD data "water_temperature")).isSome

/-- The extracted danger-level value, when present, coerces to an integer
in 0–5 — the condition the claim overlooks. -/
def dangerLevelValid (data : List (String × JVal)) : Bool :=
  (Measurement.coerce_danger_level (dataGetD data "danger_level")).isSome

/-- A timestamp value that parses is in particular truthy (only non-empty
strings parse). -/
lemma truthyOpt_of_parses {data : List (String × JVal)}
    (h : timestampParses data = true) :
    DataProcessor.truthyOpt (data.lookup "timestamp") = true := by
  unfold timestampParses dataGetD at h
  cases hl : data.lookup "timestamp" with
  | none => rw [hl] at h; simp [Measurement.parse_timestamp] at h
  | some v =>
    rw [hl] at h
    simp only [Option.getD_some] at h
    cases v with
    | str s =>
      cases hs : s.data with
      | nil =>
        have h' : (PyDateTime.fromisoformat
            (String.mk (replaceChar 'Z' "+00:00".data s.data))).isSome = true := h
        rw [hs] at h'
        simp [PyDateTime.fromisoformat, PyDateTime.takeDigits, replaceChar] at h'
      | cons c cs => simp [DataProcessor.truthyOpt, JVal.truthy, hs]
    | null => simp [Measurement.parse_timestamp] at h
    | bool b => simp [Measurement.parse_timestamp] at h
    | int n => simp [Measurement.parse_timestamp] at h
    | arr xs => simp [Measurement.parse_timestamp] at h
    | obj fs => simp [Measurement.parse_timestamp] at h

/-- C1 (amended): for a structurally valid raw result whose extraction does
not raise, `process_results` returns a record if and only if the extracted
timestamp parses, at least one of discharge, water level, water temperature
is non-null after coercion, AND the extracted danger level (when present)
coerces to an integer within 0–5 (an out-of-range or unparseable danger
level fails record construction and yields none). -/
theorem c1_accept_iff (results : JVal) (sid : String)
    (data : List (String × JVal))
    (hv : DataProcessor.validate_results results = .ok true)
    (he : DataProcessor.extract_data results sid = .ok data) :
    (∃ m, DataProcessor.process_results results sid = .ok (some m)) ↔
      (timestampParses data = true ∧ hasMeasurementValue data = true ∧
       dangerLevelValid data = true) := by
  have hstation := DataProcessor.extract_data_station he
  have hstation' : dataGetD data "station_id" = .str sid := by
    unfold dataGetD; rw [hstation]; rfl
  have hproc : DataProcessor.process_results results sid =
      (if !DataProcessor.truthyOpt (data.lookup "timestamp") then .ok none
       else
         match mkMeasurement data with
         | none => .ok none
         | some m => if m.has_measurements then .ok (some m) else .ok none) := by
    unfold DataProcessor.process_results
    rw [hv, he]
  constructor
  · rintro ⟨m, hm⟩
    rw [hproc] at hm
    by_cases hg : DataProcessor.truthyOpt (data.lookup "timestamp") = true
    · rw [hg] at hm
      simp only [Bool.not_true, Bool.false_eq_true, if_false] at hm
      cases hmk : mkMeasurement data with
      | none =>
        rw [hmk] at hm
        have hm' : (Except.ok (none : Option Measurement) :
            Except PyErr (Option Measurement)) = .ok (some m) := hm
        simp at hm'
      | some m' =>
        rw [hmk] at hm
        have hm' : (if m'.has_measurements = true
            then (Except.ok (some m') : Except PyErr (Option Measurement))
            else .ok none) = .ok (some m) := hm
        unfold mkMeasurement at hmk
        rw [hstation'] at hmk
        cases hts : Measurement.parse_timestamp (dataGetD data "timestamp") with
        | none => rw [hts] at hmk; exact Option.noConfusion hmk
        | some ts =>
          rw [hts] at hmk
          cases hdl : Measurement.coerce_danger_level (dataGetD data "danger_level") with
          | none => rw [hdl] at hmk; exact Option.noConfusion hmk
          | some dl =>
            rw [hdl] at hmk
            injection hmk with hmk'
            refine ⟨by simp [timestampParses, hts], ?_, by simp [dangerLevelValid, hdl]⟩
            cases hhas : m'.has_measurements with
            | false => rw [hhas] at hm'; simp at hm'
            | true =>
              rw [← hmk'] at hhas
              simp only [Measurement.has_measurements, Bool.or_eq_true] at hhas
              simp only [hasMeasurementValue, Bool.or_eq_true]
              tauto
    · simp only [Bool.not_eq_true] at hg
      rw [hg] at hm
      simp at hm
  · rintro ⟨h1, h2, h3⟩
    unfold timestampParses at h1
    unfold dangerLevelValid at h3
    obtain ⟨ts, hts⟩ := Option.isSome_iff_exists.mp h1
    obtain ⟨dl, hdl⟩ := Option.isSome_iff_exists.mp h3
    cases hmkv : mkMeasurement data with
    | none =>
      unfold mkMeasurement at hmkv
      rw [hstation', hts, hdl] at hmkv
      exact Option.noConfusion hmkv
    | some M =>
      have hMhas : M.has_measurements = true := by
        unfold mkMeasurement at hmkv
        rw [hstation', hts, hdl] at hmkv
        injection hmkv with h'
        rw [← h']
        simp only [Measurement.has_measurements, Bool.or_eq_true]
        simp only [hasMeasurementValue, Bool.or_eq_true] at h2
        tauto
      rw [hproc, truthyOpt_of_parses (by simpa [timestampParses] using h1)]
      simp only [Bool.not_true, Bool.false_eq_true, if_false]
      refine ⟨M, ?_⟩
      rw [hmkv]
      have hfin : (if M.has_measurements = true
          then (Except.ok (some M) : Except PyErr (Option Measurement))
          else .ok none) = .ok (some M) := by simp [hMhas]
      exact hfin

/-- Witness for `c1_accept_iff`: `goodResponse` satisfies both sides. -/
theorem c1_accept_iff_witness :
    ∃ m, DataProcessor.process_results goodResponse "2044" = .ok (some m) :=
  (c1_accept_iff goodResponse "2044"
    [("station_id", .str "2044"),
     ("timestamp", .str "2024-01-15T10:30:00Z"),
     ("discharge", .str "123.45")] rfl rfl).mpr ⟨rfl, rfl, rfl⟩

/-- C1 (counterexample): `dangerResponse` extracts a parseable timestamp
and a non-null discharge — by the claim it should yield a record — yet
`process_results` returns none, because the danger level "7" fails the
0–5 constraint during construction. -/
theorem c1_counterexample :
    DataProcessor.validate_results dangerResponse = .ok true ∧
    DataProcessor.extract_data dangerResponse "2044" = .ok dangerData ∧
    timestampParses dangerData = true ∧
    (Measurement.parse_decimal (dataGetD dangerData "discharge")).isSome = true ∧
    DataProcessor.process_results dangerResponse "2044" = .ok none :=
  ⟨rfl, rfl, rfl, rfl, rfl⟩

/-- C10: when two or more bindings carry the same recognized predicate
URI, field extraction keeps the object value of the last such binding in
input order (later bindings overwrite earlier ones). -/
theorem c10_last_binding_wins (results : JVal) (sid : String)
    (bs : List JVal) (data : List (String × JVal)) (f : String) (v : JVal)
    (hb : DataProcessor.bindingsListOf results = .ok bs)
    (he : DataProcessor.extract_data results sid = .ok data)
    (hlast : DataProcessor.lastContribution f bs = some v) :
    data.lookup f = some v := by
  unfold DataProcessor.extract_data at he
  rw [hb] at he
  have he' : DataProcessor.extractLoop [("station_id", .str sid)] bs
      = .ok data := he
  exact DataProcessor.extractLoop_lookup_last he' hlast

/-- Two bindings with the same recognized predicate (discharge). -/
def dupBindings : List JVal :=
  [mkBinding (DIMENSION_URL ++ "/discharge") "1.5",
   mkBinding (DIMENSION_URL ++ "/discharge") "2.5"]

/-- A response carrying `dupBindings`. -/
def dupResponse : JVal :=
  .obj [("results", .obj [("bindings", .arr dupBindings)])]

/-- The data `_extract_data` produces from `dupResponse`. -/
def dupData : List (String × JVal) :=
  [("station_id", .str "2044"), ("discharge", .str "2.5")]

/-- Witness for `c10_last_binding_wins`: of two discharge bindings `1.5`
then `2.5`, the extracted discharge is `2.5`. -/
theorem c10_last_binding_wins_witness :
    List.lookup "discharge" dupData = some (.str "2.5") :=
  c10_last_binding_wins dupResponse "2044" dupBindings dupData "discharge"
    (.str "2.5") rfl rfl rfl

/-- C3: the dedup key is exactly `isoformat(timestamp) + "_" + station_id`;
`save_measurements` skips records whose key is in the index, collapses two
same-key records in one batch to the first (appending only its row and
returning 1), and a second save of the same record set returns 0 and
changes nothing. -/
theorem c3_dedup_key_and_idempotence :
    (∀ m : Measurement,
       m.unique_key = m.timestamp.isoformat ++ "_" ++ m.station_id) ∧
    (∀ (st : CsvHandler.State) (ms : List Measurement) (b : Bool),
       (∀ m ∈ ms, m.unique_key ∈ st.processedKeys) →
       CsvHandler.save_measurements st ms b = (st, 0)) ∧
    (∀ (st : CsvHandler.State) (r1 r2 : Measurement),
       r1.unique_key = r2.unique_key →
       r1.unique_key ∉ st.processedKeys →
       CsvHandler.save_measurements st [r1, r2] true =
         ({ st with processedKeys := r1.unique_key :: st.processedKeys,
                    rows := st.rows ++ [r1.to_csv_dict] }, 1)) ∧
    (∀ (st : CsvHandler.State) (ms : List Measurement) (b : Bool),
       CsvHandler.save_measurements
           ((CsvHandler.save_measurements st ms true).1) ms b
         = ((CsvHandler.save_measurements st ms true).1, 0)) := by
  refine ⟨fun m => rfl, fun st ms b h => CsvHandler.save_of_all_mem b h,
    ?_, ?_⟩
  · intro st r1 r2 heq hnot
    have h2 : r2.unique_key ∈ r1.unique_key :: st.processedKeys := by
      rw [← heq]; exact List.mem_cons_self _ _
    unfold CsvHandler.save_measurements
    simp [CsvHandler.stage, hnot, h2]
  · intro st ms b
    exact CsvHandler.save_of_all_mem b (fun m hm => CsvHandler.save_mem_keys true hm)

/-- Two measurements sharing timestamp and station, differing elsewhere. -/
def twinA : Measurement :=
  { station_id := "2044", timestamp := { year := 2024, month := 1, day := 2 } }

/-- The non-key twin of `twinA`. -/
def twinB : Measurement :=
  { station_id := "2044", timestamp := { year := 2024, month := 1, day := 2 },
    discharge := some (.num false "5" 0) }

/-- Witness for `c3_dedup_key_and_idempotence` at a concrete store and
record pair. -/
theorem c3_dedup_key_and_idempotence_witness :
    twinA.unique_key = twinA.timestamp.isoformat ++ "_" ++ twinA.station_id ∧
    CsvHandler.save_measurements ⟨true, [], [twinA.unique_key]⟩ [twinA] true
      = (⟨true, [], [twinA.unique_key]⟩, 0) ∧
    CsvHandler.save_measurements ⟨true, [], []⟩ [twinA, twinB] true
      = (⟨true, [twinA.to_csv_dict], [twinA.unique_key]⟩, 1) ∧
    CsvHandler.save_measurements
        ((CsvHandler.save_measurements ⟨true, [], []⟩ [twinA, twinB] true).1)
        [twinA, twinB] false
      = ((CsvHandler.save_measurements ⟨true, [], []⟩ [twinA, twinB] true).1, 0) :=
  ⟨c3_dedup_key_and_idempotence.1 twinA,
   c3_dedup_key_and_idempotence.2.1 ⟨true, [], [twinA.unique_key]⟩ [twinA] true
     (by intro m hm; simp at hm; subst hm; exact List.mem_cons_self _ _),
   c3_dedup_key_and_idempotence.2.2.1 ⟨true, [], []⟩ twinA twinB rfl
     (by simp),
   c3_dedup_key_and_idempotence.2.2.2 ⟨true, [], []⟩ [twinA, twinB] false⟩

/-- C8: `remove_duplicates` on a 3-row table whose rows 1 and 3 share the
`(timestamp, station)` pair removes exactly 1 row keeping row 1, and
returns 1; on a missing file it returns 0 with a warning; with no shared
pair it returns 0 without rewriting anything. -/
theorem c8_remove_duplicates :
    (∀ (st : CsvHandler.State) (r1 r2 r3 : CsvHandler.Row),
       st.fileExists = true → st.rows = [r1, r2, r3] →
       CsvHandler.rowKey r3 = CsvHandler.rowKey r1 →
       CsvHandler.rowKey r2 ≠ CsvHandler.rowKey r1 →
       CsvHandler.remove_duplicates st =
         ({ st with rows := [r1, r2],
                    processedKeys := CsvHandler.keysOfRows [r1, r2] }, 1, false)) ∧
    (∀ st : CsvHandler.State, st.fileExists = false →
       CsvHandler.remove_duplicates st = (st, 0, true)) ∧
    (∀ st : CsvHandler.State, st.fileExists = true →
       st.rows.Pairwise (fun a b => CsvHandler.rowKey a ≠ CsvHandler.rowKey b) →
       CsvHandler.remove_duplicates st = (st, 0, false)) := by
  refine ⟨?_, ?_, ?_⟩
  · intro st r1 r2 r3 hfe hrows hk3 hk2
    unfold CsvHandler.remove_duplicates
    rw [hfe, hrows]
    have hdd : CsvHandler.dropDuplicates [r1, r2, r3] = [r1, r2] := by
      simp only [CsvHandler.dropDuplicates, List.filter, hk3, hk2]
      simp [hk3, hk2, CsvHandler.dropDuplicates]
    simp [hdd]
  · intro st hfe
    unfold CsvHandler.remove_duplicates
    rw [hfe]
    rfl
  · intro st hfe hp
    unfold CsvHandler.remove_duplicates
    rw [hfe]
    simp [CsvHandler.dropDuplicates_eq_self hp]

/-- Concrete rows for the `remove_duplicates` witness. -/
def rowA : CsvHandler.Row :=
  [("timestamp", some "2024-01-02T00:00:00"), ("station_id", some "2044"),
   ("discharge", some "1"), ("water_level", none), ("danger_level", none),
   ("water_temperature", none), ("is_liter", none)]

/-- A row with a different station. -/
def rowB : CsvHandler.Row :=
  [("timestamp", some "2024-01-02T00:00:00"), ("station_id", some "2112"),
   ("discharge", some "2"), ("water_level", none), ("danger_level", none),
   ("water_temperature", none), ("is_liter", none)]

/-- A row sharing `rowA`'s key but with a different discharge. -/
def rowA2 : CsvHandler.Row :=
  [("timestamp", some "2024-01-02T00:00:00"), ("station_id", some "2044"),
   ("discharge", some "9"), ("water_level", none), ("danger_level", none),
   ("water_temperature", none), ("is_liter", none)]

/-- Witness for `c8_remove_duplicates` at concrete tables. -/
theorem c8_remove_duplicates_witness :
    CsvHandler.remove_duplicates ⟨true, [rowA, rowB, rowA2], []⟩
      = (⟨true, [rowA, rowB], CsvHandler.keysOfRows [rowA, rowB]⟩, 1, false) ∧
    CsvHandler.remove_duplicates ⟨false, [rowA], []⟩ = (⟨false, [rowA], []⟩, 0, true) ∧
    CsvHandler.remove_duplicates ⟨true, [rowA, rowB], []⟩
      = (⟨true, [rowA, rowB], []⟩, 0, false) :=
  ⟨c8_remove_duplicates.1 ⟨true, [rowA, rowB, rowA2], []⟩ rowA rowB rowA2
     rfl rfl rfl (by decide),
   c8_remove_duplicates.2.1 ⟨false, [rowA], []⟩ rfl,
   c8_remove_duplicates.2.2 ⟨true, [rowA, rowB], []⟩ rfl
     (by constructor
         · intro b hb
           simp at hb
           subst hb
           decide
         · simp)⟩

/-- C9: when the append write fails, `save_measurements` returns 0 and the
file rows are unchanged, but the staged records' keys stay in the index —
so every later save of the same records by this handler returns 0 and
appends nothing, and those records are never written. -/
theorem c9_failed_write_poisons_index (st : CsvHandler.State)
    (ms : List Measurement) :
    (CsvHandler.save_measurements st ms false).2 = 0 ∧
    ((CsvHandler.save_measurements st ms false).1).rows = st.rows ∧
    (∀ m ∈ ms, m.unique_key ∈
      ((CsvHandler.save_measurements st ms false).1).processedKeys) ∧
    (∀ b, CsvHandler.save_measurements
        ((CsvHandler.save_measurements st ms false).1) ms b
      = ((CsvHandler.save_measurements st ms false).1, 0)) :=
  ⟨(CsvHandler.save_fail_result st ms).1,
   (CsvHandler.save_fail_result st ms).2,
   fun _ hm => CsvHandler.save_mem_keys false hm,
   fun b => CsvHandler.save_of_all_mem b
     (fun _ hm => CsvHandler.save_mem_keys false hm)⟩

/-- Witness for `c9_failed_write_poisons_index` at a concrete failed
write. -/
theorem c9_failed_write_witness :
    (CsvHandler.save_measurements ⟨true, [], []⟩ [twinA] false).2 = 0 ∧
    ((CsvHandler.save_measurements ⟨true, [], []⟩ [twinA] false).1).rows = [] ∧
    twinA.unique_key ∈
      ((CsvHandler.save_measurements ⟨true, [], []⟩ [twinA] false).1).processedKeys ∧
    CsvHandler.save_measurements
        ((CsvHandler.save_measurements ⟨true, [], []⟩ [twinA] false).1)
        [twinA] true
      = ((CsvHandler.save_measurements ⟨true, [], []⟩ [twinA] false).1, 0) :=
  ⟨(c9_failed_write_poisons_index ⟨true, [], []⟩ [twinA]).1,
   (c9_failed_write_poisons_index ⟨true, [], []⟩ [twinA]).2.1,
   (c9_failed_write_poisons_index ⟨true, [], []⟩ [twinA]).2.2.1 twinA
     (List.mem_cons_self _ _),
   (c9_failed_write_poisons_index ⟨true, [], []⟩ [twinA]).2.2.2 true⟩

end LindasHydro
